import Mathlib

/-!
Verification of the SkyTrackr celestial-coordinate engine.

Shallow embedding of:
* the virtual clock (`SimulationTimeContext`): `updateAnchor`, `setSpeed`,
  `togglePause`, and the per-frame `tick` sampler;
* the sidereal-time and equatorial-to-horizontal transforms
  (`astroUtils.calculateAltAz`, and the `getLocalSiderealTime` /
  `calculateAltAz` variant living next to `getPlanets`);
* the Keplerian planet ephemeris `getPlanets`;
* the horizontal-to-Cartesian scene projection `altAzToCartesian`;
* the target navigation and search logic of `SkyViewer`
  (`navigateToTarget` in both component variants, `performSearch`).

Machine numbers (IEEE doubles) are modelled as exact rationals for the
virtual clock (whose claims are exact arithmetic identities) and as real
numbers for the trigonometric pipelines.
-/

namespace SkyTrackr

/-! ### Virtual clock (`SimulationTimeContext`)

`timeRef.current` holds `{ baseTime, anchorTime, speed, isPaused }`.
Wall-clock instants (`Date.now()`) are passed explicitly as `now`.
-/

/-- The mutable clock record `timeRef.current`. -/
structure TimeRefState where
  baseTime : ℚ
  anchorTime : ℚ
  speed : ℚ
  isPaused : Bool
  deriving DecidableEq, Repr

/-- The per-frame sampler `tick` (the shared `currentSimTime` computation):
`currentSimTime = baseTime`, plus `(now - anchorTime) * speed` when not
paused. -/
def tick (s : TimeRefState) (now : ℚ) : ℚ :=
  if s.isPaused then s.baseTime else s.baseTime + (now - s.anchorTime) * s.speed

/-- `updateAnchor`: folds the elapsed wall time into `baseTime` (same
`currentSimTime` computation as `tick`) and re-anchors `anchorTime = now`. -/
def updateAnchor (s : TimeRefState) (now : ℚ) : TimeRefState :=
  { s with
    baseTime := if s.isPaused then s.baseTime else s.baseTime + (now - s.anchorTime) * s.speed
    anchorTime := now }

/-- `setSpeed`: anchor update, then store the new speed. -/
def setSpeed (s : TimeRefState) (now : ℚ) (newSpeed : ℚ) : TimeRefState :=
  { updateAnchor s now with speed := newSpeed }

/-- `togglePause`: anchor update, then flip the pause flag. -/
def togglePause (s : TimeRefState) (now : ℚ) : TimeRefState :=
  let s2 := updateAnchor s now
  { s2 with isPaused := !s2.isPaused }

/-- `setSimulationTime`: store the requested simulated time and re-anchor
(`baseTime` is overwritten, so nothing needs folding). -/
def setSimulationTime (s : TimeRefState) (now : ℚ) (t : ℚ) : TimeRefState :=
  { s with baseTime := t, anchorTime := now }

/-! ### JS-style numeric helpers (exact-real model)

`x % y` in JS is the remainder with the dividend's sign:
`x - y * trunc(x / y)`.  The repeated idiom `v = v % 360; if (v < 0) v += 360`
is `norm360`.
-/

noncomputable section

/-- JS `Math.trunc`: round toward zero. -/
def jsTrunc (x : ℝ) : ℤ := if 0 ≤ x then ⌊x⌋ else ⌈x⌉

/-- JS remainder `x % y`. -/
def jsMod (x y : ℝ) : ℝ := x - y * jsTrunc (x / y)

/-- `v % 360` followed by `if (v < 0) v += 360`: normalization into `[0, 360)`. -/
def norm360 (x : ℝ) : ℝ := if jsMod x 360 < 0 then jsMod x 360 + 360 else jsMod x 360

/-- The two `while` loops of `astroUtils.calculateAltAz` normalizing the hour
angle into `[-π, π]`: `while (ha > π) ha -= 2π` runs `⌈(ha − π)/(2π)⌉` times,
then `while (ha < -π) ha += 2π` runs `⌈(−π − ha)/(2π)⌉` times. -/
def normPmPi (x : ℝ) : ℝ :=
  let x1 := if Real.pi < x then x - 2 * Real.pi * ⌈(x - Real.pi) / (2 * Real.pi)⌉ else x
  if x1 < -Real.pi then x1 + 2 * Real.pi * ⌈(-Real.pi - x1) / (2 * Real.pi)⌉ else x1

/-- `Math.atan2 y x`, modelled as the complex argument of `x + y·i`
(range `(-π, π]`, `atan2 0 0 = 0`). -/
def atan2 (y x : ℝ) : ℝ := Complex.arg ⟨x, y⟩

/-! ### Sidereal time and the equatorial-to-horizontal transform
(`src/utils/astroUtils.ts`) -/

/-- Julian Date from Unix milliseconds: `ms / 86400000 + 2440587.5`
(shared by both sidereal-time implementations). -/
def julianDate (ms : ℝ) : ℝ := ms / 86400000 + 2440587.5

/-- GMST in degrees, `astroUtils.ts` variant: cubic polynomial in
centuries-since-J2000, normalized into `[0, 360)`. -/
def gmstATU (ms : ℝ) : ℝ :=
  let jd := julianDate ms
  let T := (jd - 2451545.0) / 36525.0
  norm360 (280.46061837 + 360.98564736629 * (jd - 2451545.0) +
    0.000387933 * T * T - T * T * T / 38710000)

/-- LST in degrees as computed in `astroUtils.calculateAltAz` (step 4). -/
def lstATU (ms lon : ℝ) : ℝ := norm360 (gmstATU ms + lon)

/-- Hour angle in radians, normalized into `[-π, π]` (step 5). -/
def hourAngleATU (ra lon ms : ℝ) : ℝ :=
  normPmPi (lstATU ms lon * Real.pi / 180 - ra * Real.pi / 180)

/-- `sinAlt` of `astroUtils.calculateAltAz` (step 7). -/
def sinAltATU (ra dec lat lon ms : ℝ) : ℝ :=
  Real.sin (dec * Real.pi / 180) * Real.sin (lat * Real.pi / 180) +
    Real.cos (dec * Real.pi / 180) * Real.cos (lat * Real.pi / 180) *
      Real.cos (hourAngleATU ra lon ms)

/-- `altitude` in radians: `asin(sinAlt)`. -/
def altitudeRadATU (ra dec lat lon ms : ℝ) : ℝ :=
  Real.arcsin (sinAltATU ra dec lat lon ms)

/-- `cosAlt = cos(altitude)` — the divisor of the azimuth computation
(step 8); the source divides by it with no near-zero guard. -/
def cosAltATU (ra dec lat lon ms : ℝ) : ℝ :=
  Real.cos (altitudeRadATU ra dec lat lon ms)

/-- Azimuth in radians: `atan2(sinAz, cosAz)` with
`sinAz = -cos(dec)·sin(HA)/cosAlt` and
`cosAz = (sin(dec) − sinAlt·sin(lat))/(cosAlt·cos(lat))`. -/
def azimuthRadATU (ra dec lat lon ms : ℝ) : ℝ :=
  let sinAz := -Real.cos (dec * Real.pi / 180) * Real.sin (hourAngleATU ra lon ms) /
      cosAltATU ra dec lat lon ms
  let cosAz := (Real.sin (dec * Real.pi / 180) -
      sinAltATU ra dec lat lon ms * Real.sin (lat * Real.pi / 180)) /
      (cosAltATU ra dec lat lon ms * Real.cos (lat * Real.pi / 180))
  atan2 sinAz cosAz

/-- Result record of `astroUtils.calculateAltAz`: altitude and azimuth in
degrees, LST in hours. -/
structure AltAzLst where
  altitude : ℝ
  azimuth : ℝ
  lst : ℝ

/-- `astroUtils.calculateAltAz` (flattened arguments
`ra dec lat lon`, date as Unix milliseconds `ms`). -/
def calculateAltAz (ra dec lat lon ms : ℝ) : AltAzLst :=
  let azimuth := azimuthRadATU ra dec lat lon ms
  let azimuth2 := if azimuth < 0 then azimuth + 2 * Real.pi else azimuth
  { altitude := altitudeRadATU ra dec lat lon ms * (180 / Real.pi)
    azimuth := azimuth2 * (180 / Real.pi)
    lst := lstATU ms lon / 15 }

/-! ### The second astro-utility iteration (the file holding `getPlanets`):
`getGreenwichSiderealTime`, `getLocalSiderealTime`, its own `calculateAltAz`
(modelled as `calculateAltAzV2`). -/

/-- GMST in degrees, `getGreenwichSiderealTime` variant:
linear formula `280.46061837 + 360.98564736629·d`, normalized. -/
def getGreenwichSiderealTime (ms : ℝ) : ℝ :=
  norm360 (280.46061837 + 360.98564736629 * (julianDate ms - 2451545.0))

/-- `getLocalSiderealTime`: `(GMST + longitude)` normalized into `[0, 360)`. -/
def getLocalSiderealTime (ms lon : ℝ) : ℝ :=
  norm360 (getGreenwichSiderealTime ms + lon)

/-- Hour angle in degrees, second variant: `lst − ra; if (ha < 0) ha += 360`. -/
def hourAngleV2 (ra lon ms : ℝ) : ℝ :=
  let ha := getLocalSiderealTime ms lon - ra
  if ha < 0 then ha + 360 else ha

/-- `sinAlt` of the second `calculateAltAz` variant. -/
def sinAltV2 (ra dec lat lon ms : ℝ) : ℝ :=
  Real.sin (dec * (Real.pi / 180)) * Real.sin (lat * (Real.pi / 180)) +
    Real.cos (dec * (Real.pi / 180)) * Real.cos (lat * (Real.pi / 180)) *
      Real.cos (hourAngleV2 ra lon ms * (Real.pi / 180))

/-- Altitude in radians, second variant. -/
def altitudeRadV2 (ra dec lat lon ms : ℝ) : ℝ :=
  Real.arcsin (sinAltV2 ra dec lat lon ms)

/-- Azimuth in radians, second variant:
`atan2(−cos(dec)·sin(HA), cos(lat)·sin(dec) − sin(lat)·cos(dec)·cos(HA))`. -/
def azimuthRadV2 (ra dec lat lon ms : ℝ) : ℝ :=
  atan2 (-Real.cos (dec * (Real.pi / 180)) * Real.sin (hourAngleV2 ra lon ms * (Real.pi / 180)))
    (Real.cos (lat * (Real.pi / 180)) * Real.sin (dec * (Real.pi / 180)) -
      Real.sin (lat * (Real.pi / 180)) * Real.cos (dec * (Real.pi / 180)) *
        Real.cos (hourAngleV2 ra lon ms * (Real.pi / 180)))

/-- Result record of the second `calculateAltAz` variant (degrees). -/
structure AltAz where
  altitude : ℝ
  azimuth : ℝ

/-- The second `calculateAltAz` variant (used by `SkyViewerInner`). -/
def calculateAltAzV2 (ra dec lat lon ms : ℝ) : AltAz :=
  let azimuth := azimuthRadV2 ra dec lat lon ms / (Real.pi / 180)
  { altitude := altitudeRadV2 ra dec lat lon ms / (Real.pi / 180)
    azimuth := if azimuth < 0 then azimuth + 360 else azimuth }

/-! ### Planet ephemeris (`getPlanets`) -/

/-- One row of the J2000 mean-element table `planetsData`. -/
structure PlanetElem where
  name : String
  a : ℝ
  e : ℝ
  I : ℝ
  L : ℝ
  longPeri : ℝ
  longNode : ℝ
  color : String
  size : ℝ
  magnitude : ℝ

/-- The `planetsData` table (eight rows, Earth included as the reference). -/
def planetsData : List PlanetElem :=
  [ ⟨"Mercury", 0.387098, 0.205630, 7.00487, 252.250845, 77.45645, 48.33167, "#A5A5A5", 0.38, -2.2⟩,
    ⟨"Venus", 0.723332, 0.006773, 3.39471, 181.97973, 131.53298, 76.68069, "#E3BB76", 0.95, -4.6⟩,
    ⟨"Earth", 1.000000, 0.016708, 0.00005, 100.46435, 102.94719, 0, "#0000FF", 1.00, 0⟩,
    ⟨"Mars", 1.523679, 0.093405, 1.85061, 355.45332, 336.04084, 49.57854, "#FF4500", 0.53, -2.3⟩,
    ⟨"Jupiter", 5.20260, 0.048498, 1.303, 34.40438, 14.75385, 100.55615, "#D9A066", 11.2, -2.9⟩,
    ⟨"Saturn", 9.554909, 0.055546, 2.485, 49.94432, 92.43194, 113.71504, "#F4D03F", 9.45, -0.55⟩,
    ⟨"Uranus", 19.218446, 0.047318, 0.773, 313.23218, 170.96424, 74.22988, "#40E0D0", 4.0, 5.5⟩,
    ⟨"Neptune", 30.110387, 0.008606, 1.770, 304.88003, 44.97135, 131.72169, "#4169E1", 3.88, 7.8⟩ ]

/-- Mean motion `n = 0.9856076686 / (a·√a)` degrees/day. -/
def meanMotion (p : PlanetElem) : ℝ := 0.9856076686 / (p.a * Real.sqrt p.a)

/-- Mean anomaly in degrees: `(L − longPeri + n·d) % 360`, made nonnegative. -/
def meanAnomalyDeg (p : PlanetElem) (d : ℝ) : ℝ :=
  norm360 (p.L - p.longPeri + meanMotion p * d)

/-- Mean anomaly in radians. -/
def meanAnomalyRad (p : PlanetElem) (d : ℝ) : ℝ :=
  meanAnomalyDeg p d * Real.pi / 180

/-- The Kepler solver of `getPlanets`: `E = M_rad`, then the loop
`for (k = 0; k < 5; k++) E = M_rad + e·sin(E)`. -/
def eccAnomaly (p : PlanetElem) (d : ℝ) : ℝ :=
  (List.range 5).foldl (fun E _ => meanAnomalyRad p d + p.e * Real.sin E)
    (meanAnomalyRad p d)

/-- Modelled from the spec: the fixed-point iteration for Kepler's equation
`E₀ = M`, `E_{k+1} = M + e·sin(E_k)`, to be compared against `eccAnomaly`. -/
def keplerFixedPoint (M e : ℝ) : ℕ → ℝ
  | 0 => M
  | k + 1 => M + e * Real.sin (keplerFixedPoint M e k)

/-- Heliocentric ecliptic position of one planet at `d` days since J2000. -/
def helioPos (p : PlanetElem) (d : ℝ) : ℝ × ℝ × ℝ :=
  let N := p.longNode * Real.pi / 180
  let i := p.I * Real.pi / 180
  let w := (p.longPeri - p.longNode) * Real.pi / 180
  let E := eccAnomaly p d
  let xorb := p.a * (Real.cos E - p.e)
  let yorb := p.a * Real.sqrt (1 - p.e * p.e) * Real.sin E
  ( xorb * (Real.cos w * Real.cos N - Real.sin w * Real.sin N * Real.cos i) -
      yorb * (Real.sin w * Real.cos N + Real.cos w * Real.sin N * Real.cos i),
    xorb * (Real.cos w * Real.sin N + Real.sin w * Real.cos N * Real.cos i) -
      yorb * (Real.sin w * Real.sin N - Real.cos w * Real.cos N * Real.cos i),
    xorb * (Real.sin w * Real.sin i) + yorb * (Real.cos w * Real.sin i) )

/-- The Mercury row of `planetsData` (used as a concrete test vector). -/
def mercuryElem : PlanetElem :=
  ⟨"Mercury", 0.387098, 0.205630, 7.00487, 252.250845, 77.45645, 48.33167,
    "#A5A5A5", 0.38, -2.2⟩

/-- One element of the sequence returned by `getPlanets`. -/
structure PlanetState where
  name : String
  ra : ℝ
  dec : ℝ
  dist : ℝ
  color : String
  size : ℝ
  magnitude : ℝ

/-- `getPlanets`: propagates all eight table rows heliocentrically, looks up
Earth as the geocentric reference, and emits every row except Earth with its
static display attributes merged with the computed `(ra, dec, dist)`. -/
def getPlanets (ms : ℝ) : List PlanetState :=
  let d := julianDate ms - 2451545.0
  let positions := planetsData.map fun p => (p.name, helioPos p d)
  let earth := (positions.lookup "Earth").getD (0, 0, 0)
  let eps := 23.43928 * Real.pi / 180
  (planetsData.filter fun p => p.name != "Earth").map fun p =>
    let pos := (positions.lookup p.name).getD (0, 0, 0)
    let X := pos.1 - earth.1
    let Y := pos.2.1 - earth.2.1
    let Z := pos.2.2 - earth.2.2
    let Xeq := X
    let Yeq := Y * Real.cos eps - Z * Real.sin eps
    let Zeq := Y * Real.sin eps + Z * Real.cos eps
    let dist := Real.sqrt (Xeq * Xeq + Yeq * Yeq + Zeq * Zeq)
    let ra0 := atan2 Yeq Xeq * 180 / Real.pi
    let ra := if ra0 < 0 then ra0 + 360 else ra0
    let dec := Real.arcsin (Zeq / dist) * 180 / Real.pi
    ⟨p.name, ra, dec, dist, p.color, p.size, p.magnitude⟩

/-! ### Scene projection (`components/three/utils.ts`) -/

/-- A point of the render frame. -/
structure Vec3 where
  x : ℝ
  y : ℝ
  z : ℝ

/-- `altAzToCartesian`: ENU intermediate frame, then render frame with
Up = +Y, East = +X, North = −Z. -/
def altAzToCartesian (alt az radius : ℝ) : Vec3 :=
  let altRad := alt * Real.pi / 180
  let azRad := az * Real.pi / 180
  let xEnu := radius * Real.cos altRad * Real.sin azRad
  let yEnu := radius * Real.sin altRad
  let zEnu := radius * Real.cos altRad * Real.cos azRad
  ⟨xEnu, yEnu, -zEnu⟩

/-! ### Target navigation (`SkyViewer.navigateToTarget`, both variants) -/

/-- The observable outcome of a navigation request: either the
below-horizon warning for the target's name, or a camera-aim instruction
carrying the computed (altitude, azimuth) in degrees. -/
inductive NavResult where
  | belowHorizon : String → NavResult
  | aim : ℝ → ℝ → NavResult
  deriving DecidableEq

/-- `navigateToTarget`, first `SkyViewer` variant: computes alt/az, and
either warns (altitude ≤ 0, no aim) or aims the camera. -/
def navigateToTarget (ra dec : ℝ) (name : String) (lat lon ms : ℝ) : NavResult :=
  let altAz := calculateAltAz ra dec lat lon ms
  if altAz.altitude ≤ 0 then .belowHorizon name
  else .aim altAz.altitude altAz.azimuth

/-- `navigateToTarget`, `SkyViewerInner` variant: clears the warning and
aims the camera unconditionally — it performs no below-horizon check. -/
def navigateToTargetInner (ra dec : ℝ) (_name : String) (lat lon ms : ℝ) : NavResult :=
  let altAz := calculateAltAzV2 ra dec lat lon ms
  .aim altAz.altitude altAz.azimuth

end

/-! ### Search (`SkyViewerInner.performSearch`) -/

/-- `name.trim().toLowerCase()`, the normalization applied to the query, to
the star-map keys, and to planet names — modelled at the character level:
whitespace stripped from both ends, then each character lower-cased. -/
def normName (s : String) : String :=
  ⟨((s.data.dropWhile (·.isWhitespace)).reverse.dropWhile (·.isWhitespace)).reverse.map
    Char.toLower⟩

/-- A star catalog row (the fields relevant to search). -/
structure Star where
  display_name : String
  RAJ2000 : ℚ
  DEJ2000 : ℚ
  Vmag : ℚ
  deriving DecidableEq

/-- `starsByNameRef.current.get(lowerName)` where the map was built by
`stars.forEach(s => map.set(normName(s.display_name), s))`: for duplicate
keys the **last** insertion wins, hence the reversed search. -/
def starMapGet (stars : List Star) (k : String) : Option Star :=
  stars.reverse.find? fun s => normName s.display_name == k

/-- The observable outcome of `performSearch`: navigate to a star, navigate
to a planet, or do nothing (no catalog match — the `NotFound` outcome). -/
inductive SearchResult where
  | star : Star → SearchResult
  | planet : PlanetState → SearchResult
  | notFound : SearchResult

/-- `performSearch`: case-insensitive exact lookup first in the star map,
then a linear `find` over the planets; falls through (NotFound) when
neither matches. -/
noncomputable def performSearch (stars : List Star) (planets : List PlanetState)
    (starName : String) : SearchResult :=
  let lowerName := normName starName
  match starMapGet stars lowerName with
  | some s => .star s
  | none =>
    match planets.find? (fun p => normName p.name == lowerName) with
    | some p => .planet p
    | none => .notFound

/-- Concrete star fixture for the search witness. -/
def starSirius : Star := ⟨"Sirius", 101, -16, -1⟩

/-- Concrete planet fixture whose name collides (case-insensitively) with
the star fixture. -/
noncomputable def planetSirius : PlanetState := ⟨"sirius", 0, 0, 0, "#FFFFFF", 1, 0⟩

/-- Concrete planet fixture for the search witness. -/
noncomputable def planetMercury : PlanetState := ⟨"Mercury", 0, 0, 0, "#A5A5A5", 0.38, -2.2⟩

end SkyTrackr

namespace SkyTrackr

/-! ## Helper lemmas -/

theorem jsMod360_bounds (x : ℝ) : -360 < jsMod x 360 ∧ jsMod x 360 < 360 := by
  unfold jsMod jsTrunc
  split
  · constructor
    · have h := Int.floor_le (x / 360)
      linarith
    · have h := Int.sub_one_lt_floor (x / 360)
      linarith
  · constructor
    · have h := Int.ceil_lt_add_one (x / 360)
      linarith
    · have h := Int.le_ceil (x / 360)
      linarith

theorem norm360_bounds (x : ℝ) : 0 ≤ norm360 x ∧ norm360 x < 360 := by
  obtain ⟨h1, h2⟩ := jsMod360_bounds x
  by_cases h : jsMod x 360 < 0
  · simp only [norm360, if_pos h]
    constructor <;> linarith
  · simp only [norm360, if_neg h]
    push_neg at h
    constructor <;> linarith

theorem norm360_sub_int (x : ℝ) : ∃ k : ℤ, norm360 x = x - 360 * k := by
  unfold norm360
  by_cases h : jsMod x 360 < 0
  · refine ⟨jsTrunc (x / 360) - 1, ?_⟩
    rw [if_pos h]
    unfold jsMod
    push_cast
    ring
  · refine ⟨jsTrunc (x / 360), ?_⟩
    rw [if_neg h]
    unfold jsMod
    ring

theorem norm360_add_360 (x : ℝ) : norm360 (x + 360) = norm360 x := by
  obtain ⟨k1, h1⟩ := norm360_sub_int (x + 360)
  obtain ⟨k2, h2⟩ := norm360_sub_int x
  obtain ⟨l1, l2⟩ := norm360_bounds (x + 360)
  obtain ⟨m1, m2⟩ := norm360_bounds x
  have key : norm360 (x + 360) - norm360 x = 360 * (1 - (k1 : ℝ) + (k2 : ℝ)) := by
    rw [h1, h2]
    ring
  have hz : k1 = 1 + k2 := by
    have h3 : (0 : ℝ) < (k1 : ℝ) - (k2 : ℝ) := by nlinarith [key]
    have h4 : (k1 : ℝ) - (k2 : ℝ) < 2 := by nlinarith [key]
    have h5 : (0 : ℤ) < k1 - k2 := by exact_mod_cast h3
    have h6 : k1 - k2 < 2 := by exact_mod_cast h4
    omega
  have hc : (k1 : ℝ) = 1 + (k2 : ℝ) := by exact_mod_cast hz
  rw [hc] at key
  linarith

theorem sinAltATU_northpole (ra dec lon ms : ℝ) :
    sinAltATU ra dec 90 lon ms = Real.sin (dec * Real.pi / 180) := by
  unfold sinAltATU
  rw [show (90 : ℝ) * Real.pi / 180 = Real.pi / 2 by ring, Real.sin_pi_div_two,
    Real.cos_pi_div_two]
  ring

theorem decRad_bounds (dec : ℝ) (h1 : -90 ≤ dec) (h2 : dec ≤ 90) :
    -(Real.pi / 2) ≤ dec * Real.pi / 180 ∧ dec * Real.pi / 180 ≤ Real.pi / 2 := by
  have hπ := Real.pi_pos
  constructor <;> nlinarith

theorem calculateAltAz_northpole (ra dec lon ms : ℝ) (h1 : -90 ≤ dec) (h2 : dec ≤ 90) :
    (calculateAltAz ra dec 90 lon ms).altitude = dec := by
  obtain ⟨b1, b2⟩ := decRad_bounds dec h1 h2
  have hd : (calculateAltAz ra dec 90 lon ms).altitude =
      altitudeRadATU ra dec 90 lon ms * (180 / Real.pi) := rfl
  rw [hd]
  unfold altitudeRadATU
  rw [sinAltATU_northpole, Real.arcsin_sin b1 b2]
  have hπ := Real.pi_ne_zero
  field_simp

theorem calculateAltAzV2_northpole (ra dec lon ms : ℝ) (h1 : -90 ≤ dec) (h2 : dec ≤ 90) :
    (calculateAltAzV2 ra dec 90 lon ms).altitude = dec := by
  obtain ⟨b1, b2⟩ := decRad_bounds dec h1 h2
  have hd : (calculateAltAzV2 ra dec 90 lon ms).altitude =
      altitudeRadV2 ra dec 90 lon ms / (Real.pi / 180) := rfl
  rw [hd]
  unfold altitudeRadV2 sinAltV2
  rw [show (90 : ℝ) * (Real.pi / 180) = Real.pi / 2 by ring, Real.sin_pi_div_two,
    Real.cos_pi_div_two, show dec * (Real.pi / 180) = dec * Real.pi / 180 by ring]
  simp only [mul_one, mul_zero, zero_mul, add_zero]
  rw [Real.arcsin_sin b1 b2]
  have hπ := Real.pi_ne_zero
  field_simp

/-! ## Theorems -/

/-- C7: for an observer at the North Pole (`lat = 90`), the altitude
computed by `calculateAltAz` equals the object's declination (within
1e-9 degrees; in the exact-real model it is equal outright), for every
right ascension, longitude and timestamp. -/
theorem northpole_altitude_eq_declination (ra dec lon ms : ℝ)
    (h1 : -90 ≤ dec) (h2 : dec ≤ 90) :
    |(calculateAltAz ra dec 90 lon ms).altitude - dec| ≤ 1e-9 := by
  rw [calculateAltAz_northpole ra dec lon ms h1 h2, sub_self, abs_zero]
  norm_num

/-- Witness for C7 at `ra = 0`, `dec = 45`, `lon = 0`, `ms = 0`. -/
theorem northpole_altitude_eq_declination_witness :
    |(calculateAltAz 0 45 90 0 0).altitude - 45| ≤ 1e-9 :=
  northpole_altitude_eq_declination 0 45 0 0 (by norm_num) (by norm_num)

/-- C2 (refuting the guard): the azimuth computation of
`astroUtils.calculateAltAz` divides by `cosAlt` with no near-zero guard;
at the zenith input `ra = 0, dec = 90, lat = 90, lon = 0, ms = 0` the
divisor `cosAlt = cos(asin(sinAlt))` is exactly 0 in exact arithmetic
(`sinAlt = 1`), so the division `-cos(dec)·sin(HA)/cosAlt` is a division
by zero, contrary to the claimed deterministic guard. -/
theorem calculateAltAz_zenith_divisor_is_zero :
    sinAltATU 0 90 90 0 0 = 1 ∧ cosAltATU 0 90 90 0 0 = 0 := by
  have hs : sinAltATU 0 90 90 0 0 = 1 := by
    rw [sinAltATU_northpole, show (90 : ℝ) * Real.pi / 180 = Real.pi / 2 by ring,
      Real.sin_pi_div_two]
  refine ⟨hs, ?_⟩
  unfold cosAltATU altitudeRadATU
  rw [hs, Real.arcsin_one, Real.cos_pi_div_two]

/-- C3 (amended, first `SkyViewer` variant): `navigateToTarget` returns the
below-horizon outcome, and no aim instruction, exactly when the computed
altitude is ≤ 0; with positive altitude it returns an aim instruction
carrying the computed (altitude, azimuth). -/
theorem navigateToTarget_checks_horizon (ra dec : ℝ) (name : String) (lat lon ms : ℝ) :
    ((calculateAltAz ra dec lat lon ms).altitude ≤ 0 →
      navigateToTarget ra dec name lat lon ms = .belowHorizon name) ∧
    (0 < (calculateAltAz ra dec lat lon ms).altitude →
      navigateToTarget ra dec name lat lon ms =
        .aim (calculateAltAz ra dec lat lon ms).altitude
          (calculateAltAz ra dec lat lon ms).azimuth) := by
  constructor
  · intro h
    simp only [navigateToTarget]
    rw [if_pos h]
  · intro h
    simp only [navigateToTarget]
    rw [if_neg (not_le.mpr h)]

/-- Witness for C3's amended theorem: a target at `dec = -90` seen from the
North Pole is below the horizon (altitude −90°), a target at `dec = 45` is
above it (altitude 45°). -/
theorem navigateToTarget_checks_horizon_witness :
    navigateToTarget 0 (-90) "Sirius" 90 0 0 = .belowHorizon "Sirius" ∧
    navigateToTarget 0 45 "Vega" 90 0 0 =
      .aim (calculateAltAz 0 45 90 0 0).altitude (calculateAltAz 0 45 90 0 0).azimuth := by
  constructor
  · exact (navigateToTarget_checks_horizon 0 (-90) "Sirius" 90 0 0).1
      (by rw [calculateAltAz_northpole 0 (-90) 0 0 (by norm_num) (by norm_num)]; norm_num)
  · exact (navigateToTarget_checks_horizon 0 45 "Vega" 90 0 0).2
      (by rw [calculateAltAz_northpole 0 45 0 0 (by norm_num) (by norm_num)]; norm_num)

/-- C9: `altAzToCartesian` computes exactly
`x = r·cos(alt)·sin(az)`, `y = r·sin(alt)`, `z = −r·cos(alt)·cos(az)`
(degrees converted to radians), the result lies on the sphere
`x² + y² + z² = r²`, and azimuth 0 (North) maps to negative `z` while
azimuth 90 (East) maps to positive `x`. -/
theorem altAzToCartesian_formulas_and_sphere (alt az radius : ℝ) :
    ((altAzToCartesian alt az radius).x =
        radius * Real.cos (alt * Real.pi / 180) * Real.sin (az * Real.pi / 180) ∧
      (altAzToCartesian alt az radius).y = radius * Real.sin (alt * Real.pi / 180) ∧
      (altAzToCartesian alt az radius).z =
        -(radius * Real.cos (alt * Real.pi / 180) * Real.cos (az * Real.pi / 180))) ∧
    (altAzToCartesian alt az radius).x ^ 2 + (altAzToCartesian alt az radius).y ^ 2 +
        (altAzToCartesian alt az radius).z ^ 2 = radius ^ 2 ∧
    (0 < radius → -90 < alt → alt < 90 →
      (altAzToCartesian alt 0 radius).z < 0 ∧ 0 < (altAzToCartesian alt 90 radius).x) := by
  have hcos : ∀ a : ℝ, -90 < a → a < 90 → 0 < Real.cos (a * Real.pi / 180) := by
    intro a h1 h2
    apply Real.cos_pos_of_mem_Ioo
    have hπ := Real.pi_pos
    constructor <;> [skip; skip] <;> nlinarith
  refine ⟨⟨rfl, rfl, rfl⟩, ?_, fun hr h1 h2 => ⟨?_, ?_⟩⟩
  · simp only [altAzToCartesian]
    linear_combination
      radius ^ 2 * (Real.cos (alt * Real.pi / 180)) ^ 2 *
          Real.sin_sq_add_cos_sq (az * Real.pi / 180) +
        radius ^ 2 * Real.sin_sq_add_cos_sq (alt * Real.pi / 180)
  · simp only [altAzToCartesian]
    rw [show (0 : ℝ) * Real.pi / 180 = 0 by ring, Real.cos_zero, mul_one]
    have := mul_pos hr (hcos alt h1 h2)
    linarith
  · simp only [altAzToCartesian]
    rw [show (90 : ℝ) * Real.pi / 180 = Real.pi / 2 by ring, Real.sin_pi_div_two, mul_one]
    exact mul_pos hr (hcos alt h1 h2)

/-- Witness for C9's conditional part at `alt = 0`, `az`-instances 0 and 90,
`radius = 1`. -/
theorem altAzToCartesian_formulas_and_sphere_witness :
    (altAzToCartesian 0 0 1).z < 0 ∧ 0 < (altAzToCartesian 0 90 1).x :=
  (altAzToCartesian_formulas_and_sphere 0 0 1).2.2 (by norm_num) (by norm_num) (by norm_num)

theorem range_foldl_keplerFixedPoint (M e : ℝ) (n : ℕ) :
    (List.range n).foldl (fun E _ => M + e * Real.sin E) M = keplerFixedPoint M e n := by
  induction n with
  | zero => rfl
  | succ k ih =>
    rw [List.range_succ, List.foldl_append, ih]
    rfl

/-- C6: the ephemeris solves Kepler's equation by exactly 5 fixed-point
iterations starting from `E = M` (radians), where the mean anomaly `M` is
`L − longPeri + n·d` normalized into `[0, 360)` and the mean motion is
`n = 0.9856076686 / a^1.5` degrees/day (the source writes `a·√a`). -/
theorem kepler_five_iterations (p : PlanetElem) (d : ℝ) (ha : 0 < p.a) :
    meanMotion p = 0.9856076686 / p.a ^ (1.5 : ℝ) ∧
    meanAnomalyDeg p d = norm360 (p.L - p.longPeri + meanMotion p * d) ∧
    0 ≤ meanAnomalyDeg p d ∧ meanAnomalyDeg p d < 360 ∧
    eccAnomaly p d = keplerFixedPoint (meanAnomalyRad p d) p.e 5 := by
  refine ⟨?_, rfl, (norm360_bounds _).1, (norm360_bounds _).2,
    range_foldl_keplerFixedPoint _ _ 5⟩
  unfold meanMotion
  congr 1
  rw [show (1.5 : ℝ) = 1 + 1 / 2 by norm_num, Real.rpow_add ha, Real.rpow_one,
    ← Real.sqrt_eq_rpow]

/-- Witness for C6 at the Mercury table row, `d = 0`. -/
theorem kepler_five_iterations_witness :
    meanMotion mercuryElem = 0.9856076686 / mercuryElem.a ^ (1.5 : ℝ) ∧
    meanAnomalyDeg mercuryElem 0 =
      norm360 (mercuryElem.L - mercuryElem.longPeri + meanMotion mercuryElem * 0) ∧
    0 ≤ meanAnomalyDeg mercuryElem 0 ∧ meanAnomalyDeg mercuryElem 0 < 360 ∧
    eccAnomaly mercuryElem 0 =
      keplerFixedPoint (meanAnomalyRad mercuryElem 0) mercuryElem.e 5 :=
  kepler_five_iterations mercuryElem 0 (by norm_num [mercuryElem])

/-- C3 (counterexample to the claim as stated): the `SkyViewerInner`
variant of `navigateToTarget` performs no below-horizon check — at a
target with computed altitude −90° (≤ 0) it still produces an aim
instruction and no below-horizon outcome. -/
theorem skyViewerInner_aims_below_horizon :
    (calculateAltAzV2 0 (-90) 90 0 0).altitude ≤ 0 ∧
    navigateToTargetInner 0 (-90) "Sirius" 90 0 0 =
      .aim (calculateAltAzV2 0 (-90) 90 0 0).altitude
        (calculateAltAzV2 0 (-90) 90 0 0).azimuth ∧
    navigateToTargetInner 0 (-90) "Sirius" 90 0 0 ≠ .belowHorizon "Sirius" := by
  refine ⟨?_, rfl, ?_⟩
  · rw [calculateAltAzV2_northpole 0 (-90) 0 0 (by norm_num) (by norm_num)]
    norm_num
  · simp [navigateToTargetInner]

/-- C8: local sidereal time is periodic in longitude with period 360°, for
both implementations (`getLocalSiderealTime` next to `getPlanets`, and the
LST computed inside `astroUtils.calculateAltAz`). -/
theorem localSiderealTime_periodic_in_longitude (ms lon : ℝ) :
    getLocalSiderealTime ms lon = getLocalSiderealTime ms (lon + 360) ∧
    lstATU ms lon = lstATU ms (lon + 360) := by
  constructor
  · unfold getLocalSiderealTime
    rw [show getGreenwichSiderealTime ms + (lon + 360) =
      (getGreenwichSiderealTime ms + lon) + 360 by ring, norm360_add_360]
  · unfold lstATU
    rw [show gmstATU ms + (lon + 360) = (gmstATU ms + lon) + 360 by ring,
      norm360_add_360]

/-- C5: for every timestamp, `getPlanets` returns exactly the seven
planets other than Earth, in table order, each carrying its static display
attributes (color, relative size, reference magnitude) from `planetsData`;
`"Earth"` never appears in the output (it is propagated only as the
geocentric reference). -/
theorem getPlanets_excludes_earth (ms : ℝ) :
    ((getPlanets ms).map fun r => (r.name, r.color, r.size, r.magnitude)) =
      [("Mercury", "#A5A5A5", (0.38 : ℝ), (-2.2 : ℝ)),
        ("Venus", "#E3BB76", 0.95, -4.6),
        ("Mars", "#FF4500", 0.53, -2.3),
        ("Jupiter", "#D9A066", 11.2, -2.9),
        ("Saturn", "#F4D03F", 9.45, -0.55),
        ("Uranus", "#40E0D0", 4.0, 5.5),
        ("Neptune", "#4169E1", 3.88, 7.8)] ∧
    "Earth" ∉ (getPlanets ms).map PlanetState.name := by
  constructor
  · simp [getPlanets, planetsData]
  · simp [getPlanets, planetsData]

/-- C4: `performSearch` resolves a query by case-insensitive exact match,
stars first: whenever some star matches the normalized query the result is
that star (planets never preempt a star); a planet is resolved only when no
star matches; and when neither matches the outcome is `notFound`. -/
theorem performSearch_star_priority (stars : List Star) (planets : List PlanetState)
    (q : String) :
    ((∃ s ∈ stars, normName s.display_name = normName q) →
      ∃ s ∈ stars, normName s.display_name = normName q ∧
        performSearch stars planets q = .star s) ∧
    ((∀ s ∈ stars, normName s.display_name ≠ normName q) →
      (∃ p ∈ planets, normName p.name = normName q) →
      ∃ p ∈ planets, normName p.name = normName q ∧
        performSearch stars planets q = .planet p) ∧
    ((∀ s ∈ stars, normName s.display_name ≠ normName q) →
      (∀ p ∈ planets, normName p.name ≠ normName q) →
      performSearch stars planets q = .notFound) := by
  refine ⟨fun h => ?_, fun hns h => ?_, fun hns hnp => ?_⟩
  · obtain ⟨s, hs, he⟩ := h
    have hsome : (stars.reverse.find?
        (fun s => normName s.display_name == normName q)).isSome := by
      rw [List.find?_isSome]
      exact ⟨s, List.mem_reverse.mpr hs, by simp [he]⟩
    obtain ⟨s0, hfind⟩ := Option.isSome_iff_exists.mp hsome
    have h1 := List.find?_some hfind
    have h2 := List.mem_of_find?_eq_some hfind
    refine ⟨s0, List.mem_reverse.mp h2, by simpa using h1, ?_⟩
    simp only [performSearch, starMapGet]
    rw [hfind]
  · have hnone : stars.reverse.find?
        (fun s => normName s.display_name == normName q) = none :=
      List.find?_eq_none.mpr fun s hs => by
        simpa using hns s (List.mem_reverse.mp hs)
    obtain ⟨p, hp, he⟩ := h
    have hsome : (planets.find? (fun p => normName p.name == normName q)).isSome := by
      rw [List.find?_isSome]
      exact ⟨p, hp, by simp [he]⟩
    obtain ⟨p0, hfind⟩ := Option.isSome_iff_exists.mp hsome
    have h1 := List.find?_some hfind
    have h2 := List.mem_of_find?_eq_some hfind
    refine ⟨p0, h2, by simpa using h1, ?_⟩
    simp only [performSearch, starMapGet]
    rw [hnone, hfind]
  · have hnone : stars.reverse.find?
        (fun s => normName s.display_name == normName q) = none :=
      List.find?_eq_none.mpr fun s hs => by
        simpa using hns s (List.mem_reverse.mp hs)
    have hnonep : planets.find? (fun p => normName p.name == normName q) = none :=
      List.find?_eq_none.mpr fun p hp => by simpa using hnp p hp
    simp only [performSearch, starMapGet]
    rw [hnone, hnonep]

/-- Witness for C4: a query differing only in case and whitespace from a
star name resolves to the star even when a planet also matches; a
planet-only match resolves to the planet; an unknown name yields
`notFound`. -/
theorem performSearch_star_priority_witness :
    (∃ s ∈ [starSirius], normName s.display_name = normName " SIRIUS " ∧
      performSearch [starSirius] [planetSirius] " SIRIUS " = .star s) ∧
    (∃ p ∈ [planetMercury], normName p.name = normName "mercury" ∧
      performSearch [starSirius] [planetMercury] "mercury" = .planet p) ∧
    performSearch [starSirius] [planetMercury] "Pluto" = .notFound := by
  refine ⟨(performSearch_star_priority [starSirius] [planetSirius] " SIRIUS ").1 ?_,
    (performSearch_star_priority [starSirius] [planetMercury] "mercury").2.1 ?_ ?_,
    (performSearch_star_priority [starSirius] [planetMercury] "Pluto").2.2 ?_ ?_⟩
  · exact ⟨starSirius, by simp, by decide⟩
  · intro s hs
    rw [List.mem_singleton.mp hs]
    decide
  · exact ⟨planetMercury, by simp, by decide⟩
  · intro s hs
    rw [List.mem_singleton.mp hs]
    decide
  · intro p hp
    rw [List.mem_singleton.mp hp]
    decide

/-- C1: with `paused = false` the sampled simulated time at wall time `now`
is `baseTime + (now - anchorWallTime) * rate`; with `paused = true` it is
exactly `baseTime`; and after `setRate 2` (here `setSpeed s now 2`),
sampling `1000` ms of wall time later yields a simulated time exactly
`2000` ms ahead of the simulated time at the moment of the call, whatever
the previous rate `s.speed` was. -/
theorem virtualClock_sample_invariant_and_setSpeed_two
    (s : TimeRefState) (now : ℚ) :
    (s.isPaused = false → tick s now = s.baseTime + (now - s.anchorTime) * s.speed) ∧
    (s.isPaused = true → tick s now = s.baseTime) ∧
    (s.isPaused = false →
      tick (setSpeed s now 2) (now + 1000) = tick s now + 2000) := by
  refine ⟨fun h => ?_, fun h => ?_, fun h => ?_⟩
  · simp [tick, h]
  · simp [tick, h]
  · simp [tick, setSpeed, updateAnchor, h]
    ring

/-- Witness for C1 at the concrete state
`{baseTime := 0, anchorTime := 0, speed := 5, isPaused := false}` (and its
paused counterpart), wall time `100`. -/
theorem virtualClock_sample_invariant_and_setSpeed_two_witness :
    tick ⟨0, 0, 5, false⟩ 100 = 0 + (100 - 0) * 5 ∧
    tick ⟨0, 0, 5, true⟩ 100 = 0 ∧
    tick (setSpeed ⟨0, 0, 5, false⟩ 100 2) (100 + 1000) =
      tick ⟨0, 0, 5, false⟩ 100 + 2000 := by
  refine ⟨?_, ?_, ?_⟩
  · exact (virtualClock_sample_invariant_and_setSpeed_two ⟨0, 0, 5, false⟩ 100).1 rfl
  · exact (virtualClock_sample_invariant_and_setSpeed_two ⟨0, 0, 5, true⟩ 100).2.1 rfl
  · exact (virtualClock_sample_invariant_and_setSpeed_two ⟨0, 0, 5, false⟩ 100).2.2 rfl

/-- C10: `updateAnchor` is a no-op on the sampled simulated time — at the
instant `now` of the update the re-anchored state samples to the same
value, only the `(baseTime, anchorTime)` representation changes (speed and
pause flag are untouched); consequently `setSpeed` and `togglePause` do
not jump the sampled time at the instant they are called. -/
theorem updateAnchor_preserves_sample (s : TimeRefState) (now r : ℚ) :
    tick (updateAnchor s now) now = tick s now ∧
    (updateAnchor s now).speed = s.speed ∧
    (updateAnchor s now).isPaused = s.isPaused ∧
    tick (setSpeed s now r) now = tick s now ∧
    tick (togglePause s now) now = tick s now := by
  refine ⟨?_, rfl, rfl, ?_, ?_⟩ <;>
    cases h : s.isPaused <;>
      simp [tick, updateAnchor, setSpeed, togglePause, h]

end SkyTrackr
